import Mathlib

/-!
Verification of the chat-streaming and timestamp-grounding pipeline of the
youtube-chat-ai repository.  All definitions are shallow embeddings of the
TypeScript source: `src/utils/transcript/index.ts` (timestamp extractor and
snippet extractor), the rate-limited transcript cache variant of the same
module, `src/utils/chatStorage.ts` (message persistence), `src/utils/formatters.ts`
(`formatTime`) and `src/app/api/chat/route.ts` (prompt assembly and the
streaming relay).  JavaScript numbers appearing in the code are integers on
every path exercised here, so they are embedded as `Nat`/`Int`; machine
strings are Lean `String`s (JS strings are UTF-16, identical on the ASCII
data used throughout).
-/

/-! ## Timestamp extractor (`src/utils/transcript/index.ts`)

The source uses the regular expression `\[(\d{1,2}):(\d{2})\]` (with the `g`
flag in `extractTimestamps`).  We embed the regex engine's behaviour on this
fixed pattern directly: at a given start position the pattern matches when the
text reads `[`, one or two digits (greedy, with backtracking), `:`, exactly
two digits, `]`.  `tryMatchAt` attempts a match anchored at the head of a
character list and returns the minutes value, the seconds value and the rest
of the input after the match. -/

def charDigitVal (c : Char) : Nat := c.toNat - 48

def tryMatchAt : List Char → Option (Nat × Nat × List Char)
  | '[' :: c1 :: c2 :: c3 :: rest1 =>
    if c1.isDigit then
      if c2.isDigit then
        -- greedy: two-digit minutes, so c3 must be the colon
        (match c3, rest1 with
          | ':', d1 :: d2 :: ']' :: rest2 =>
            if d1.isDigit && d2.isDigit then
              some (10 * charDigitVal c1 + charDigitVal c2,
                    10 * charDigitVal d1 + charDigitVal d2, rest2)
            else none
          | _, _ => none)
      else if c2 = ':' then
        -- backtrack to one-digit minutes
        (match rest1 with
          | d2 :: ']' :: rest2 =>
            if c3.isDigit && d2.isDigit then
              some (charDigitVal c1, 10 * charDigitVal c3 + charDigitVal d2, rest2)
            else none
          | _ => none)
      else none
    else none
  | _ => none

/-- `String.prototype.match` with a non-global regex: first match anywhere. -/
def findFirstMatch : List Char → Option (Nat × Nat)
  | [] => none
  | c :: rest =>
    match tryMatchAt (c :: rest) with
    | some (m, s, _) => some (m, s)
    | none => findFirstMatch rest

/-- `parseTimestamp` from `src/utils/transcript/index.ts`: match
`\[(\d{1,2}):(\d{2})\]`, then `(minutes * 60 + seconds) * 1000`. -/
def parseTimestamp (s : String) : Option Nat :=
  match findFirstMatch s.data with
  | some (m, sec) => some ((m * 60 + sec) * 1000)
  | none => none

/-- One step of the global-regex scan of `extractTimestamps`: after a match
the scan resumes at the regex `lastIndex`, i.e. right after the `]`; after a
failed anchor the scan advances one character.  Fuel is the input length. -/
def extractGo : Nat → List Char → List Nat
  | 0, _ => []
  | _ + 1, [] => []
  | fuel + 1, c :: rest =>
    match tryMatchAt (c :: rest) with
    | some (m, s, rest2) => (m * 60 + s) * 1000 :: extractGo fuel rest2
    | none => extractGo fuel rest

/-- `extractTimestamps` from `src/utils/transcript/index.ts`. -/
def extractTimestamps (message : String) : List Nat :=
  extractGo message.data.length message.data

/-! ## `formatTime` (`src/utils/formatters.ts`)

`formatTime` guards `isNaN(seconds) || seconds < 0` (we embed integral
inputs, so only the sign guard is representable), floors, and renders
`MM:SS` with `String.padStart(2, '0')` on each field. -/

def padStart2 (s : String) : String :=
  if s.length ≥ 2 then s else String.mk (List.replicate (2 - s.length) '0') ++ s

def pad2 (n : Nat) : String := padStart2 (Nat.repr n)

def formatTime (seconds : Int) : String :=
  if seconds < 0 then "00:00"
  else
    let totalSeconds := seconds.toNat
    pad2 (totalSeconds / 60) ++ ":" ++ pad2 (totalSeconds % 60)

/-- A bracketed timestamp token built from its two rendered fields. -/
def mkToken (minutesStr secondsStr : String) : String :=
  "[" ++ minutesStr ++ ":" ++ secondsStr ++ "]"

/-- The normalized form of a token's inner text, per the round-trip claim:
the minutes field zero-padded to two digits, the seconds field unchanged. -/
def normalizedToken (minutesStr secondsStr : String) : String :=
  padStart2 minutesStr ++ ":" ++ secondsStr

/-! ## Snippet extractor (`getTranscriptSnippet`, `src/utils/transcript/index.ts`)

Transcript entries carry a text, a start offset and a duration, all in
milliseconds (JS numbers; integral in every caption track, embedded as `Int`
so that `timestampMs - windowMs` can go negative exactly as in the source).
`Int.fdiv` is `Math.floor` division; `%`/`/` below agree with the JS
operators on the non-negative offsets delivered by the transcript provider. -/

structure TranscriptEntry where
  text : String
  offset : Int
  duration : Int
deriving DecidableEq, Repr

/-- The filter predicate of `getTranscriptSnippet`: the three inclusive
overlap tests written in the source. -/
def entryInWindow (timestampMs windowMs : Int) (entry : TranscriptEntry) : Bool :=
  let entryStart := entry.offset
  let entryEnd := entry.offset + entry.duration
  (entryStart ≥ timestampMs - windowMs && entryStart ≤ timestampMs + windowMs) ||
  (entryEnd ≥ timestampMs - windowMs && entryEnd ≤ timestampMs + windowMs) ||
  (entryStart ≤ timestampMs - windowMs && entryEnd ≥ timestampMs + windowMs)

/-- The per-entry `[MM:SS] text` rendering inside `getTranscriptSnippet`. -/
def renderEntry (entry : TranscriptEntry) : String :=
  let seconds := Int.fdiv entry.offset 1000
  let minutes := seconds / 60
  let remainingSeconds := seconds % 60
  "[" ++ padStart2 (toString minutes) ++ ":" ++ padStart2 (toString remainingSeconds) ++ "]"
    ++ " " ++ entry.text

/-- `getTranscriptSnippet(transcript, timestampMs, windowMs = 20000)`. -/
def getTranscriptSnippet (transcript : List TranscriptEntry) (timestampMs : Int)
    (windowMs : Int := 20000) : String :=
  if transcript.isEmpty then ""
  else
    let relevantEntries := transcript.filter (entryInWindow timestampMs windowMs)
    if relevantEntries.isEmpty then ""
    else String.intercalate "\n" (relevantEntries.map renderEntry)

/-! ## Timestamp collection in the chat route (`src/app/api/chat/route.ts`)

The handler pushes the request's explicit `timestamp` field (a number of
seconds of playback position, sent by the client page) into
`timestampsToCheck` as-is, then appends every extracted timestamp (which
`extractTimestamps` yields in milliseconds), and deduplicates with
`[...new Set(...)]`, which keeps the first occurrence of each value in
insertion order. -/

def timestampsToCheck (userMessage : String) (timestamp : Option Int) : List Int :=
  (match timestamp with
    | some t => [t]
    | none => []) ++ (extractTimestamps userMessage).map Int.ofNat

/-- `[...new Set(l)]`: deduplication preserving first-occurrence order. -/
def jsSetDedup : List Int → List Int :=
  go []
where
  go (seen : List Int) : List Int → List Int
    | [] => []
    | x :: rest => if x ∈ seen then go seen rest else x :: go (x :: seen) rest

/-- `uniqueTimestamps` in the chat route. -/
def uniqueTimestamps (userMessage : String) (timestamp : Option Int) : List Int :=
  jsSetDedup (timestampsToCheck userMessage timestamp)

/-! ## Streaming response relay (`src/app/api/chat/route.ts`, the
`ReadableStream` passed to `new Response`)

The `start` callback awaits `chat.sendMessageStream`, iterates the delta
stream, and for each delta with a truthy `chunk.text` enqueues
`JSON.stringify({chunk, done: false})` and appends the text to `responseText`;
on normal end it enqueues `JSON.stringify({chunk: '', done: true,
fullResponse: responseText})`; if anything inside the `try` throws it enqueues
`JSON.stringify({error, done: true})`.  A run of the AI stream is a list of
delta texts followed by either a normal end (`none`) or a thrown error with a
message (`some msg`) — an error thrown by `sendMessageStream` itself is the
run with no deltas. -/

inductive StreamRec where
  | chunkRec (chunk : String) (done : Bool)
  | finalRec (fullResponse : String)
  | errorRec (message : String)
deriving DecidableEq, Repr

def relayGo : String → List String → Option String → List StreamRec
  | acc, [], none => [.finalRec acc]
  | _, [], some m => [.errorRec m]
  | acc, d :: rest, failure =>
    if d = "" then relayGo acc rest failure
    else .chunkRec d false :: relayGo (acc ++ d) rest failure

/-- The full record sequence the relay enqueues for one turn. -/
def relayRecords (deltas : List String) (failure : Option String) : List StreamRec :=
  relayGo "" deltas failure

/-! ### The bytes on the wire

Each record is enqueued as `TextEncoder().encode(JSON.stringify(rec))`; the
source appends no separator of any kind between records.  `jsonOfRec` is
`JSON.stringify` on the three record shapes (keys in insertion order, JSON
string escaping). -/

def hexDigitChar (n : Nat) : String := String.singleton (Nat.digitChar n)

def jsonEscapeChar (c : Char) : String :=
  if c = '"' then "\\\""
  else if c = '\\' then "\\\\"
  else if c = '\x08' then "\\b"
  else if c = '\t' then "\\t"
  else if c = '\n' then "\\n"
  else if c = '\x0c' then "\\f"
  else if c = '\r' then "\\r"
  else if c.toNat < 32 then "\\u00" ++ hexDigitChar (c.toNat / 16) ++ hexDigitChar (c.toNat % 16)
  else String.singleton c

def jsonEscape (s : String) : String := String.join (s.data.map jsonEscapeChar)

def jsonStr (s : String) : String := "\"" ++ jsonEscape s ++ "\""

def jsonOfRec : StreamRec → String
  | .chunkRec c d =>
    "\x7b\"chunk\":" ++ jsonStr c ++ ",\"done\":" ++ (if d then "true" else "false") ++ "\x7d"
  | .finalRec full =>
    "\x7b\"chunk\":\"\",\"done\":true,\"fullResponse\":" ++ jsonStr full ++ "\x7d"
  | .errorRec m =>
    "\x7b\"error\":" ++ jsonStr m ++ ",\"done\":true\x7d"

/-- The streamed response body: the concatenation of the encoded records,
with nothing between them (the source writes no separator). -/
def relayBody (deltas : List String) (failure : Option String) : String :=
  String.join ((relayRecords deltas failure).map jsonOfRec)

/-! ## The POST handler's response shape (`src/app/api/chat/route.ts`)

Everything before `new Response(stream, …)` runs inside the outer
`try`/`catch`; an exception there produces a JSON error response whose status
the catch block computes.  Once `new Response(stream, {headers})` is returned
the status is fixed: the `ResponseInit` passes headers only, so the status is
the `Response` default, 200, whatever the `start` callback later does. -/

structure VideoDetails where
  title : String
  description : String

/-- A thrown JS error as the outer catch block inspects it: its `message`,
whether it is a `SyntaxError`, and whether `error.response?.promptFeedback?.blockReason`
is set. -/
structure JsError where
  message : String
  synError : Bool
  promptBlocked : Bool

/-- Substring test: JS `String.prototype.includes`. -/
def strContains (s pat : String) : Bool :=
  containsAux s.data
where
  containsAux : List Char → Bool
    | [] => pat.data.isPrefixOf []
    | c :: rest => pat.data.isPrefixOf (c :: rest) || containsAux rest

inductive ChatResponse where
  | jsonError (status : Nat) (message : String)
  | streamResponse (body : List StreamRec)

/-- `new Response(stream, {headers})` carries the default status. -/
def ChatResponse.status : ChatResponse → Nat
  | .jsonError s _ => s
  | .streamResponse _ => 200

/-- The outer catch block of the POST handler. -/
def handleCatch (e : JsError) : ChatResponse :=
  if strContains e.message "blocked" || e.promptBlocked then
    .jsonError 400 "The response was blocked due to safety settings."
  else if e.synError then
    .jsonError 400 "Invalid request format."
  else if e.message ≠ "" then
    .jsonError 500 e.message
  else
    .jsonError 500 "Failed to get response from AI assistant."

/-- The POST handler, from the API-key guard to the returned response.
`parseError` is a failure of `request.json()`; `preStreamError` is an
exception from any later pre-stream step (`ai.chats.create`, the
transcript-context `chat.sendMessage`); `deltas`/`streamFailure` describe the
AI stream consumed inside the `ReadableStream.start` callback. -/
def POSTm (apiKeyPresent : Bool) (parseError : Option JsError) (userMessage : String)
    (videoDetails : Option VideoDetails) (preStreamError : Option JsError)
    (deltas : List String) (streamFailure : Option String) : ChatResponse :=
  if !apiKeyPresent then
    .jsonError 500 "AI Service is not configured. Missing API key."
  else
    match parseError with
    | some e => handleCatch e
    | none =>
      if userMessage = "" || videoDetails.isNone then
        .jsonError 400 "Missing required fields: userMessage and videoDetails."
      else
        match preStreamError with
        | some e => handleCatch e
        | none => .streamResponse (relayRecords deltas streamFailure)

/-! ## Transcript cache, rate limiter and fetcher (the rate-limited
`getTranscript` of the transcript module)

Process-wide state: `transcriptCache : Map<string, CachedTranscript>` and the
single `rateLimitTracker`.  We embed the two plus the JS clock (`Date.now()`,
milliseconds, an `Int`) as one world record threaded through the function.
The external `YoutubeTranscript.fetchTranscript` is an oracle indexed by a
global attempt counter: each attempt either resolves to an entry list or
throws with an error message.  Waiting (`setTimeout`) advances the clock by
exactly the requested amount; everything else is instantaneous, which only
strengthens what the rate-limit counterexample below shows.  Each emitted
`FetchEvent` marks a suspension or an external fetch attempt, in order. -/

structure CachedTranscript where
  entries : List TranscriptEntry
  timestamp : Int
deriving DecidableEq, Repr

structure RateLimitTracker where
  lastRequestTime : Int
  requestCount : Nat
  resetTime : Int
deriving DecidableEq, Repr

structure TranscriptWorld where
  cache : List (String × CachedTranscript)
  tracker : RateLimitTracker
  now : Int
deriving DecidableEq, Repr

def CACHE_DURATION : Int := 60 * 60 * 1000

def MAX_REQUESTS_PER_MINUTE : Nat := 10

def MAX_RETRIES : Nat := 3

/-- `transcriptCache.get` (JS `Map`). -/
def cacheGet (m : List (String × CachedTranscript)) (k : String) : Option CachedTranscript :=
  (m.find? (fun p => p.1 == k)).map Prod.snd

/-- `transcriptCache.set` (JS `Map`: replace in place, or append a new key). -/
def cacheSet (m : List (String × CachedTranscript)) (k : String) (v : CachedTranscript) :
    List (String × CachedTranscript) :=
  if m.any (fun p => p.1 == k) then m.map (fun p => if p.1 == k then (k, v) else p)
  else m ++ [(k, v)]

inductive FetchOutcome where
  | success (entries : List TranscriptEntry)
  | failure (message : String)

inductive FetchEvent where
  | rateWait (ms : Int)
  | backoffWait (ms : Int)
  | fetchAttempt
deriving DecidableEq, Repr

def FetchEvent.isRateWait : FetchEvent → Bool
  | .rateWait _ => true
  | _ => false

/-- The cache-hit test at the top of `getTranscript`:
`cached && now - cached.timestamp < CACHE_DURATION`. -/
def cacheLookupFresh (w : TranscriptWorld) (videoId : String) : Option (List TranscriptEntry) :=
  match cacheGet w.cache videoId with
  | some cached => if w.now - cached.timestamp < CACHE_DURATION then some cached.entries else none
  | none => none

/-- The window-reset step: `if (now > rateLimitTracker.resetTime)` zero the
counter and move the reset time one minute out. -/
def resetTracker (now : Int) (t : RateLimitTracker) : RateLimitTracker :=
  if now > t.resetTime then { t with requestCount := 0, resetTime := now + 60000 } else t

/-- The `while (retries < MAX_RETRIES)` fetch-and-retry loop.  `entryNow` is
the `now` captured at function entry — the source stores it as the cache
timestamp even after backoff delays.  Returns the result, the world, the next
oracle index and the event log.  `loopFuel` only drives the structural
recursion; the loop iterates at most `MAX_RETRIES` times (the guard
`retries < MAX_RETRIES`), so any `loopFuel ≥ MAX_RETRIES` gives the loop's
exact behaviour and the fuel-exhaustion branch is unreachable. -/
def fetchLoop (oracle : Nat → FetchOutcome) (videoId : String) (entryNow : Int)
    (w : TranscriptWorld) (fIdx : Nat) (evs : List FetchEvent) (retries : Nat) :
    (loopFuel : Nat) → Option (List TranscriptEntry) × TranscriptWorld × Nat × List FetchEvent
  | 0 => (none, w, fIdx, evs)
  | loopFuel + 1 =>
  if retries < MAX_RETRIES then
    let w1 := { w with tracker :=
      { w.tracker with lastRequestTime := w.now, requestCount := w.tracker.requestCount + 1 } }
    let evs1 := evs ++ [.fetchAttempt]
    match oracle fIdx with
    | .success entries =>
      if entries.isEmpty then (none, w1, fIdx + 1, evs1)
      else
        (some entries,
         { w1 with cache := cacheSet w1.cache videoId ⟨entries, entryNow⟩ },
         fIdx + 1, evs1)
    | .failure msg =>
      let isRateLimited :=
        strContains msg "rate" || strContains msg "429" || strContains msg "too many"
      let isTemporaryError :=
        strContains msg "timeout" || strContains msg "network" || strContains msg "temporary"
      if isRateLimited || isTemporaryError then
        if retries + 1 < MAX_RETRIES then
          let delay : Int := 2 ^ (retries + 1) * 500
          fetchLoop oracle videoId entryNow { w1 with now := w1.now + delay } (fIdx + 1)
            (evs1 ++ [.backoffWait delay]) (retries + 1) loopFuel
        else (none, w1, fIdx + 1, evs1)
      else (none, w1, fIdx + 1, evs1)
  else (none, w, fIdx, evs)

/-- `getTranscript(videoId)`.  The outer fuel bounds the recursive self-call
taken after a rate-limit wait (`return getTranscript(videoId)`); `none` means
the fuel ran out, never an error of the modelled function. -/
def getTranscriptM (fuel : Nat) (oracle : Nat → FetchOutcome) (videoId : String)
    (w : TranscriptWorld) (fIdx : Nat) (evs : List FetchEvent) :
    Option (Option (List TranscriptEntry) × TranscriptWorld × Nat × List FetchEvent) :=
  match fuel with
  | 0 => none
  | fuel + 1 =>
    match cacheLookupFresh w videoId with
    | some entries => some (some entries, w, fIdx, evs)
    | none =>
      let tracker1 := resetTracker w.now w.tracker
      let w1 := { w with tracker := tracker1 }
      if tracker1.requestCount ≥ MAX_REQUESTS_PER_MINUTE then
        let timeToWait := tracker1.resetTime - w.now
        if timeToWait > 0 then
          getTranscriptM fuel oracle videoId
            { w1 with now := w.now + (timeToWait + 100) } fIdx
            (evs ++ [.rateWait (timeToWait + 100)])
        else some (fetchLoop oracle videoId w.now w1 fIdx evs 0 MAX_RETRIES)
      else some (fetchLoop oracle videoId w.now w1 fIdx evs 0 MAX_RETRIES)

/-! ## Message persistence gateway (`saveMessage`, `src/utils/chatStorage.ts`)

`Message` (src/types) is `{id, user, text, timestamp, isAi, isStreaming?}`.
`saveMessage` inspects the runtime value of `message.text` with
`typeof message.text === 'string'`, so the embedding carries the text as a JS
value.  `JsValue` is a JS/JSON value; `stringifyV` is `JSON.stringify` on it
(fuel bounds the structural recursion; any fuel larger than the value's depth
gives the exact output).  A `null` and an `undefined` timestamp are both
embedded as `none` (both are falsy; `JSON.stringify` renders a `null` field —
the one spot where the two JS values would differ is the serialization of a
message with an `undefined` timestamp, which no claim touches). -/

inductive JsValue where
  | jnull
  | jbool (b : Bool)
  | jnum (n : Int)
  | jstr (s : String)
  | jarr (elems : List JsValue)
  | jobj (fields : List (String × JsValue))

def stringifyV : Nat → JsValue → String
  | 0, _ => "null"
  | _ + 1, .jnull => "null"
  | _ + 1, .jbool b => if b then "true" else "false"
  | _ + 1, .jnum n => toString n
  | _ + 1, .jstr s => jsonStr s
  | fuel + 1, .jarr es => "[" ++ String.intercalate "," (es.map (stringifyV fuel)) ++ "]"
  | fuel + 1, .jobj fs =>
    "\x7b" ++ String.intercalate ","
      (fs.map (fun p => jsonStr p.1 ++ ":" ++ stringifyV fuel p.2)) ++ "\x7d"

structure MessageV where
  id : Int
  user : String
  text : JsValue
  timestamp : Option Int
  isAi : Bool
  isStreaming : Option Bool

/-- `JSON.stringify(message)`: the object's own keys in declaration order;
an `undefined` `isStreaming` property is omitted. -/
def jsStringifyMessage (m : MessageV) : String :=
  stringifyV 32 (.jobj
    ([("id", .jnum m.id), ("user", .jstr m.user), ("text", m.text),
      ("timestamp", match m.timestamp with | some t => .jnum t | none => .jnull),
      ("isAi", .jbool m.isAi)] ++
      (match m.isStreaming with | some b => [("isStreaming", .jbool b)] | none => [])))

def MAX_CONTENT_SIZE : Nat := 1024 * 8

/-- The serialization choice of `saveMessage`: `message.text` when
`typeof message.text === 'string'`, otherwise `JSON.stringify(message)`. -/
def rawContent (m : MessageV) : String :=
  match m.text with
  | .jstr s => s
  | _ => jsStringifyMessage m

/-- The size cap of `saveMessage`: `content.substring(0, MAX_CONTENT_SIZE - 3)`
plus the `'...'` marker when the content exceeds `MAX_CONTENT_SIZE`
(JS counts UTF-16 units, Lean counts characters; identical off the
astral-plane characters none of these claims involve). -/
def capContent (content : String) : String :=
  if content.length > MAX_CONTENT_SIZE then
    (content.take (MAX_CONTENT_SIZE - 3)) ++ "..."
  else content

/-- Content preparation in `saveMessage`: serialize, then cap. -/
def prepareContent (m : MessageV) : String := capContent (rawContent m)

/-- The `timestamp` column of the inserted row:
`message.timestamp || Math.floor(Date.now() / 1000)` (`0`, `null` and
`undefined` are falsy). -/
def rowTimestamp (msgTs : Option Int) (nowMs : Int) : Int :=
  match msgTs with
  | some t => if t = 0 then Int.fdiv nowMs 1000 else t
  | none => Int.fdiv nowMs 1000

/-- One attempt of the supabase insert: it resolves cleanly, resolves with a
supabase `error` object (message and `code`), or rejects/throws a JS value
with a message (`isErrorInstance` is `instanceof Error`; a supabase
`PostgrestError` extends `Error`, so its rethrow is modelled with
`isErrorInstance = true` built in below). -/
inductive InsertResult where
  | ok
  | dbError (message : String) (code : Option String)
  | thrown (message : String) (isErrorInstance : Bool)

/-- What one `saveMessage` call did: the returned boolean, how many insert
attempts ran, the backoff delays slept in order, and the row of the
successful insert (content, timestamp column, is_ai), if any. -/
structure SaveResult where
  success : Bool
  attemptsMade : Nat
  delays : List Int
  savedRow : Option (String × Int × Bool)
deriving DecidableEq, Repr

/-- The supabase rate-limit signature test on a returned `error` object. -/
def isRateLimitError (msg : String) (code : Option String) : Bool :=
  strContains msg "rate" || code == some "429" || code == some "too_many_requests"

/-- The inner catch block's retry test:
`err instanceof Error && (message includes network | timeout | rate)`. -/
def isRetryableThrown (msg : String) (isErrorInstance : Bool) : Bool :=
  isErrorInstance &&
    (strContains msg "network" || strContains msg "timeout" || strContains msg "rate")

/-- The `while (retries <= MAX_RETRIES)` loop of `saveMessage`
(`MAX_RETRIES = 3` there, so at most four insert attempts).  `k` counts
attempts (indexing the oracle), `now` is the clock, advanced by the backoff
sleeps.  `loopFuel ≥ 5` covers every reachable iteration. -/
def saveLoop (attempts : Nat → InsertResult) (content : String) (msgTs : Option Int)
    (isAi : Bool) : (retries : Nat) → (now : Int) → (k : Nat) → (delays : List Int) →
    (loopFuel : Nat) → SaveResult
  | _, _, k, delays, 0 => ⟨false, k, delays, none⟩
  | retries, now, k, delays, loopFuel + 1 =>
    if retries ≤ 3 then
      let ts := rowTimestamp msgTs now
      match attempts k with
      | .ok => ⟨true, k + 1, delays, some (content, ts, isAi)⟩
      | .dbError msg code =>
        -- the rate-signature branch increments and retries; otherwise the
        -- error is thrown and lands in the inner catch, whose own test may
        -- still retry it (a transient-network message, or a rate message
        -- whose in-branch retry budget was just exhausted)
        let r1 := if isRateLimitError msg code then retries + 1 else retries
        if isRateLimitError msg code && r1 ≤ 3 then
          let delay : Int := 2 ^ r1 * 500
          saveLoop attempts content msgTs isAi r1 (now + delay) (k + 1)
            (delays ++ [delay]) loopFuel
        else
          let r2 := if isRetryableThrown msg true then r1 + 1 else r1
          if isRetryableThrown msg true && r2 ≤ 3 then
            let delay : Int := 2 ^ r2 * 500
            saveLoop attempts content msgTs isAi r2 (now + delay) (k + 1)
              (delays ++ [delay]) loopFuel
          else ⟨false, k + 1, delays, none⟩
      | .thrown msg isErr =>
        let r2 := if isRetryableThrown msg isErr then retries + 1 else retries
        if isRetryableThrown msg isErr && r2 ≤ 3 then
          let delay : Int := 2 ^ r2 * 500
          saveLoop attempts content msgTs isAi r2 (now + delay) (k + 1)
            (delays ++ [delay]) loopFuel
        else ⟨false, k + 1, delays, none⟩
    else ⟨false, k, delays, none⟩

/-- `saveMessage(conversationId, message)`: prepare and cap the content, then
run the retry loop.  Every failure path of the source resolves to `false`
(the final `return false` after the loop and the outer catch); no path
throws. -/
def saveMessage (attempts : Nat → InsertResult) (m : MessageV) (now0 : Int) : SaveResult :=
  saveLoop attempts (prepareContent m) m.timestamp m.isAi 0 now0 0 [] 5

/-! ## Claims -/

/-! ### Sanity checks (spec §8 examples and basic evaluations) -/

-- sanity checks (spec §8)
example : formatTime (-5) = "00:00" := by decide
example : formatTime 3661 = "61:01" := by decide
example : parseTimestamp "[02:10]" = some 130000 := by decide
example : parseTimestamp "[1:2]" = none := by decide
example : extractTimestamps "check [01:02] and [1:02] and [12:3]" = [62000, 62000] := by
  decide

theorem reprDigits : ∀ m : Nat, m < 100 →
    (Nat.repr m).data =
      (if m < 10 then [Nat.digitChar m] else [Nat.digitChar (m / 10), Nat.digitChar (m % 10)]) := by
  decide

-- sanity checks (spec §8 examples for the snippet extractor)
example :
    getTranscriptSnippet
      [⟨"a", 0, 5000⟩, ⟨"b", 30000, 5000⟩] 2000 20000 = "[00:00] a" := by decide
example :
    getTranscriptSnippet
      [⟨"a", 0, 5000⟩, ⟨"b", 30000, 5000⟩] 25000 20000 = "[00:00] a\n[00:30] b" := by decide
example : uniqueTimestamps "What happens at [02:10]?" (some 95) = [95, 130000] := by decide

-- sanity checks
example : relayRecords ["Hel", "lo"] none =
    [.chunkRec "Hel" false, .chunkRec "lo" false, .finalRec "Hello"] := by decide
example : relayRecords ["Hel"] (some "boom") =
    [.chunkRec "Hel" false, .errorRec "boom"] := by decide
example : relayBody ["a"] none =
    "\x7b\"chunk\":\"a\",\"done\":false\x7d\x7b\"chunk\":\"\",\"done\":true,\"fullResponse\":\"a\"\x7d" := by
  decide

-- sanity check: a miss, an admitted call, a successful fetch, then a hit
example :
    getTranscriptM 2 (fun _ => .success [⟨"a", 0, 5000⟩]) "X"
      ⟨[], ⟨0, 0, 60000⟩, 1000⟩ 0 [] =
    some (some [⟨"a", 0, 5000⟩],
      ⟨[("X", ⟨[⟨"a", 0, 5000⟩], 1000⟩)], ⟨1000, 1, 60000⟩, 1000⟩, 1, [.fetchAttempt]) := by
  decide

-- sanity checks
example :
    saveMessage (fun _ => .ok) ⟨1, "You", .jstr "hi", some 95, false, none⟩ 1700000000000 =
    ⟨true, 1, [], some ("hi", 95, false)⟩ := by decide
example :
    saveMessage (fun _ => .dbError "rate limit" none)
      ⟨1, "You", .jstr "hi", some 95, false, none⟩ 0 =
    ⟨false, 4, [1000, 2000, 4000], none⟩ := by decide
example :
    saveMessage (fun _ => .thrown "disk on fire" true)
      ⟨1, "You", .jstr "hi", some 95, false, none⟩ 0 =
    ⟨false, 1, [], none⟩ := by decide

/-- C1.  At the failing input the route collects the raw seconds value `95`
of the explicit playback timestamp — the code pushes `timestamp` without
converting it to milliseconds, although every extracted timestamp is in
milliseconds and `getTranscriptSnippet` documents its parameter as
milliseconds — so the deduplicated candidate set is `{95, 130000}`, not the
`{95000, 130000}` the claim states. -/
theorem collectedTimestamps_mix_units :
    uniqueTimestamps "What happens at [02:10]?" (some 95) = [95, 130000] ∧
    (95000 : Int) ∉ uniqueTimestamps "What happens at [02:10]?" (some 95) := by
  decide

theorem foldl_append_shift (l : List String) : ∀ a b : String,
    List.foldl (fun r s => r ++ s) (a ++ b) l = a ++ List.foldl (fun r s => r ++ s) b l := by
  induction l with
  | nil => intro a b; rfl
  | cons c t ih =>
    intro a b
    have : a ++ b ++ c = a ++ (b ++ c) := String.append_assoc a b c
    simp only [List.foldl_cons, this, ih]

/-- Unfolding of the relay accumulator: forwarded records are exactly the
non-empty deltas in order, and the terminal record carries the accumulator
extended by their concatenation (normal end) or the error message. -/
theorem relayGo_eq (deltas : List String) : ∀ (acc : String) (failure : Option String),
    relayGo acc deltas failure =
      (deltas.filter (fun d => !(d == ""))).map (fun d => StreamRec.chunkRec d false) ++
      [match failure with
        | none =>
          StreamRec.finalRec (acc ++ String.join (deltas.filter (fun d => !(d == ""))))
        | some m => StreamRec.errorRec m] := by
  induction deltas with
  | nil =>
    intro acc failure
    cases failure <;> simp [relayGo, String.join]
  | cons d rest ih =>
    intro acc failure
    by_cases hd : d = ""
    · subst hd
      cases failure <;> simp [relayGo, ih]
    · have hd' : (d == "") = false := by simpa using hd
      have hshift := foldl_append_shift (rest.filter (fun d => !(d == ""))) d ""
      cases failure <;>
        simp [relayGo, hd, hd', ih, String.join, String.append_assoc, ← hshift]

/-- C3.  On a normal stream end the relay emits the forwarded per-delta
records followed by exactly one final record whose `fullResponse` is the
concatenation, in arrival order, of all previously forwarded delta texts; on
a mid-stream failure it emits the forwarded records followed by one
`{error, done: true}` record, and no record of the error run carries a
`fullResponse` field. -/
theorem streamingRelay_terminal (deltas : List String) (m : String) :
    relayRecords deltas none =
      (deltas.filter (fun d => !(d == ""))).map (fun d => StreamRec.chunkRec d false) ++
        [StreamRec.finalRec (String.join (deltas.filter (fun d => !(d == ""))))] ∧
    relayRecords deltas (some m) =
      (deltas.filter (fun d => !(d == ""))).map (fun d => StreamRec.chunkRec d false) ++
        [StreamRec.errorRec m] ∧
    ∀ t, StreamRec.finalRec t ∉ relayRecords deltas (some m) := by
  refine ⟨?_, ?_, ?_⟩
  · simpa using relayGo_eq deltas "" none
  · simpa using relayGo_eq deltas "" (some m)
  · intro t hmem
    rw [relayRecords, relayGo_eq deltas "" (some m)] at hmem
    rcases List.mem_append.1 hmem with h | h
    · rcases List.mem_map.1 h with ⟨d, _, hd⟩
      exact StreamRec.noConfusion hd
    · rcases List.mem_singleton.1 h with h
      exact StreamRec.noConfusion h

/-- C4.  The relay writes consecutive JSON records with no separator at all:
for the two-delta run `["a", "b"]` the streamed body is the three JSON
objects glued together with no newline anywhere, so a client that splits a
coalesced read on `'\n'` cannot recover the three records. -/
theorem relayBody_has_no_newlines :
    relayBody ["a", "b"] none =
      "\x7b\"chunk\":\"a\",\"done\":false\x7d\x7b\"chunk\":\"b\",\"done\":false\x7d" ++
      "\x7b\"chunk\":\"\",\"done\":true,\"fullResponse\":\"ab\"\x7d" ∧
    '\n' ∉ (relayBody ["a", "b"] none).data ∧
    (relayRecords ["a", "b"] none).length = 3 := by
  decide

/-- C9.  Once the request passes the pre-stream phase (API key present, body
parsed, required fields present, no pre-stream exception), the handler
returns the stream response — whose status is the `Response` default 200 —
for every possible AI stream, including an error before the first delta;
every non-200 response comes from a failure before streaming starts: 500 for
the missing API key, 400 for missing required fields, and the outer catch
maps parse errors and pre-stream exceptions to 400 or 500 only. -/
theorem chatRoute_streaming_always_200 :
    (∀ (userMessage : String) (vd : VideoDetails) (deltas : List String)
        (failure : Option String), userMessage ≠ "" →
      POSTm true none userMessage (some vd) none deltas failure =
          .streamResponse (relayRecords deltas failure) ∧
        (POSTm true none userMessage (some vd) none deltas failure).status = 200) ∧
    (∀ (pe : Option JsError) (um : String) (vd : Option VideoDetails)
        (pre : Option JsError) (deltas : List String) (failure : Option String),
      POSTm false pe um vd pre deltas failure =
        .jsonError 500 "AI Service is not configured. Missing API key.") ∧
    (∀ (um : String) (vd : Option VideoDetails) (pre : Option JsError)
        (deltas : List String) (failure : Option String),
      um = "" ∨ vd = none →
      POSTm true none um vd pre deltas failure =
        .jsonError 400 "Missing required fields: userMessage and videoDetails.") ∧
    (∀ (um : String) (vd : VideoDetails) (e : JsError) (deltas : List String)
        (failure : Option String), um ≠ "" →
      POSTm true none um (some vd) (some e) deltas failure = handleCatch e) ∧
    (∀ (e : JsError) (um : String) (vd : Option VideoDetails) (pre : Option JsError)
        (deltas : List String) (failure : Option String),
      POSTm true (some e) um vd pre deltas failure = handleCatch e) ∧
    (∀ e : JsError, (handleCatch e).status = 400 ∨ (handleCatch e).status = 500) := by
  refine ⟨?_, ?_, ?_, ?_, ?_, ?_⟩
  · intro um vd deltas failure hum
    constructor <;> simp [POSTm, hum, ChatResponse.status]
  · intro pe um vd pre deltas failure
    simp [POSTm]
  · intro um vd pre deltas failure h
    rcases h with h | h <;> subst h <;> simp [POSTm]
  · intro um vd e deltas failure hum
    simp [POSTm, hum]
  · intro e um vd pre deltas failure
    simp [POSTm]
  · intro e
    unfold handleCatch
    split_ifs <;> simp [ChatResponse.status]

/-- Witness for `chatRoute_streaming_always_200` at concrete inputs: a
one-delta stream gets a 200 stream response, a stream whose very first read
fails still gets a 200 stream response ending in the inline error record,
and the missing-fields response is a 400. -/
theorem chatRoute_streaming_always_200_witness :
    POSTm true none "hi" (some ⟨"T", "D"⟩) none [] (some "engine down") =
        .streamResponse [.errorRec "engine down"] ∧
    (POSTm true none "hi" (some ⟨"T", "D"⟩) none [] (some "engine down")).status = 200 ∧
    POSTm true none "" none none [] none =
      .jsonError 400 "Missing required fields: userMessage and videoDetails." := by
  have h := chatRoute_streaming_always_200
  refine ⟨?_, (h.1 "hi" ⟨"T", "D"⟩ [] (some "engine down") (by decide)).2, ?_⟩
  · have h1 := (h.1 "hi" ⟨"T", "D"⟩ [] (some "engine down") (by decide)).1
    simpa [relayRecords, relayGo] using h1
  · exact h.2.2.1 "" none none [] none (Or.inl rfl)

theorem entryInWindow_iff_overlap (ts w : Int) (e : TranscriptEntry)
    (hw : 0 ≤ w) (h : 0 ≤ e.duration) :
    entryInWindow ts w e = true ↔
      (e.offset ≤ ts + w ∧ ts - w ≤ e.offset + e.duration) := by
  simp only [entryInWindow, Bool.or_eq_true, Bool.and_eq_true, decide_eq_true_eq,
    ge_iff_le]
  omega

theorem getTranscriptSnippet_no_match (t : List TranscriptEntry) (ts w : Int)
    (h : t.filter (entryInWindow ts w) = []) :
    getTranscriptSnippet t ts w = "" := by
  cases t with
  | nil => rfl
  | cons e rest => simp [getTranscriptSnippet, h]

theorem getTranscriptSnippet_join (t : List TranscriptEntry) (ts w : Int)
    (h : t.filter (entryInWindow ts w) ≠ []) :
    getTranscriptSnippet t ts w =
      String.intercalate "\n" ((t.filter (entryInWindow ts w)).map renderEntry) := by
  cases t with
  | nil => simp at h
  | cons e rest =>
    simp only [getTranscriptSnippet, List.isEmpty_cons, Bool.false_eq_true, if_false]
    simp [List.isEmpty_iff, h]

/-- C6.  The snippet extractor selects exactly the entries whose interval
`[offset, offset + duration]` intersects `[ts - w, ts + w]` (the three
inclusive tests of the source are equivalent to interval intersection for the
non-negative durations the provider delivers and any non-negative window
width — the source always passes the 20000 ms default); it returns `""` on an empty
transcript or when nothing matches, and otherwise joins the matching entries
in original order, one per line, each prefixed with its own `[MM:SS]` marker;
the two boundary examples behave as stated. -/
theorem snippetExtractor_selects_overlaps :
    (∀ (ts w : Int) (e : TranscriptEntry), 0 ≤ w → 0 ≤ e.duration →
      (entryInWindow ts w e = true ↔
        (e.offset ≤ ts + w ∧ ts - w ≤ e.offset + e.duration))) ∧
    (∀ ts w : Int, getTranscriptSnippet [] ts w = "") ∧
    (∀ (t : List TranscriptEntry) (ts w : Int), t.filter (entryInWindow ts w) = [] →
      getTranscriptSnippet t ts w = "") ∧
    (∀ (t : List TranscriptEntry) (ts w : Int), t.filter (entryInWindow ts w) ≠ [] →
      getTranscriptSnippet t ts w =
        String.intercalate "\n" ((t.filter (entryInWindow ts w)).map renderEntry)) ∧
    getTranscriptSnippet [⟨"a", 0, 5000⟩, ⟨"b", 30000, 5000⟩] 2000 20000 = "[00:00] a" ∧
    getTranscriptSnippet [⟨"a", 0, 5000⟩, ⟨"b", 30000, 5000⟩] 25000 20000 =
      "[00:00] a\n[00:30] b" := by
  exact ⟨fun ts w e hw h => entryInWindow_iff_overlap ts w e hw h, fun _ _ => rfl,
    getTranscriptSnippet_no_match, getTranscriptSnippet_join,
    by decide, by decide⟩

/-- Witness for `snippetExtractor_selects_overlaps`: the overlap equivalence
and the emptiness cases evaluated at concrete entries. -/
theorem snippetExtractor_selects_overlaps_witness :
    (entryInWindow 2000 20000 ⟨"a", 0, 5000⟩ = true ↔
      ((0 : Int) ≤ 2000 + 20000 ∧ (2000 : Int) - 20000 ≤ 0 + 5000)) ∧
    getTranscriptSnippet [⟨"b", 30000, 5000⟩] 2000 3000 = "" := by
  have h := snippetExtractor_selects_overlaps
  exact ⟨h.1 2000 20000 ⟨"a", 0, 5000⟩ (by decide) (by decide),
    h.2.2.1 [⟨"b", 30000, 5000⟩] 2000 3000 (by decide)⟩

/-! ### C8: `parseTimestamp` / `formatTime` round-trip -/

theorem strDataAppend (a b : String) : (a ++ b).data = a.data ++ b.data := by
  cases a; cases b; rfl

theorem digitCharIsDigit : ∀ d : Nat, d < 10 → (Nat.digitChar d).isDigit = true := by
  decide

theorem charDigitValDigitChar : ∀ d : Nat, d < 10 → charDigitVal (Nat.digitChar d) = d := by
  decide

theorem padStart2_single (c : Char) : padStart2 (String.mk [c]) = String.mk ['0', c] := by
  simp [padStart2, String.length]
  rfl

theorem padStart2_len2 (s : String) (h : s.length ≥ 2) : padStart2 s = s := by
  simp [padStart2, h]

theorem reprData_lt10 (n : Nat) (h : n < 10) : (Nat.repr n).data = [Nat.digitChar n] := by
  have := reprDigits n (by omega)
  simpa [h] using this

theorem reprData_ge10 (n : Nat) (h10 : 10 ≤ n) (h : n < 100) :
    (Nat.repr n).data = [Nat.digitChar (n / 10), Nat.digitChar (n % 10)] := by
  have := reprDigits n h
  have h' : ¬ n < 10 := by omega
  simpa [h'] using this

/-- The two characters of `pad2 n` for `n < 100`, with their digit facts and
the recovery of `n`. -/
theorem pad2_two_digits (n : Nat) (h : n < 100) :
    ∃ e1 e2 : Char, (pad2 n).data = [e1, e2] ∧ e1.isDigit = true ∧ e2.isDigit = true ∧
      10 * charDigitVal e1 + charDigitVal e2 = n := by
  rcases Nat.lt_or_ge n 10 with h10 | h10
  · refine ⟨'0', Nat.digitChar n, ?_, rfl, digitCharIsDigit n h10, ?_⟩
    · have hr := reprData_lt10 n h10
      have : Nat.repr n = String.mk [Nat.digitChar n] := by
        cases hrepr : Nat.repr n with
        | mk l => simp only [hrepr] at hr; simp [hr]
      rw [pad2, this, padStart2_single]
    · have : charDigitVal '0' = 0 := rfl
      simp [this, charDigitValDigitChar n h10]
  · refine ⟨Nat.digitChar (n / 10), Nat.digitChar (n % 10), ?_, ?_, ?_, ?_⟩
    · have hr := reprData_ge10 n h10 h
      have hlen : (Nat.repr n).length ≥ 2 := by
        simp [String.length, hr]
      rw [pad2, padStart2_len2 _ hlen, hr]
    · exact digitCharIsDigit _ (by omega)
    · exact digitCharIsDigit _ (by omega)
    · rw [charDigitValDigitChar _ (by omega), charDigitValDigitChar _ (by omega)]
      omega

theorem tryMatchAt_token2 (c1 c2 d1 d2 : Char) (rest : List Char)
    (h1 : c1.isDigit = true) (h2 : c2.isDigit = true)
    (h3 : d1.isDigit = true) (h4 : d2.isDigit = true) :
    tryMatchAt ('[' :: c1 :: c2 :: ':' :: d1 :: d2 :: ']' :: rest) =
      some (10 * charDigitVal c1 + charDigitVal c2,
            10 * charDigitVal d1 + charDigitVal d2, rest) := by
  simp [tryMatchAt, h1, h2, h3, h4]

theorem tryMatchAt_token1 (c1 d1 d2 : Char) (rest : List Char)
    (h1 : c1.isDigit = true) (h3 : d1.isDigit = true) (h4 : d2.isDigit = true) :
    tryMatchAt ('[' :: c1 :: ':' :: d1 :: d2 :: ']' :: rest) =
      some (charDigitVal c1, 10 * charDigitVal d1 + charDigitVal d2, rest) := by
  have hcolon : (':' : Char).isDigit = false := by decide
  simp [tryMatchAt, h1, h3, h4, hcolon]

theorem mkToken_data (a b : String) :
    (mkToken a b).data = '[' :: (a.data ++ ':' :: (b.data ++ [']'])) := by
  simp [mkToken, strDataAppend]

theorem parseTimestamp_token2 (m sec : Nat) (hm : m < 100) (hs : sec < 100) :
    parseTimestamp (mkToken (pad2 m) (pad2 sec)) = some ((m * 60 + sec) * 1000) := by
  obtain ⟨e1, e2, he, he1, he2, hev⟩ := pad2_two_digits m hm
  obtain ⟨f1, f2, hf, hf1, hf2, hfv⟩ := pad2_two_digits sec hs
  have hdata : (mkToken (pad2 m) (pad2 sec)).data =
      '[' :: e1 :: e2 :: ':' :: f1 :: f2 :: ']' :: [] := by
    rw [mkToken_data, he, hf]; rfl
  rw [parseTimestamp, hdata, findFirstMatch,
    tryMatchAt_token2 e1 e2 f1 f2 [] he1 he2 hf1 hf2]
  simp [hev, hfv]

theorem parseTimestamp_token1 (m sec : Nat) (hm : m < 10) (hs : sec < 100) :
    parseTimestamp (mkToken (Nat.repr m) (pad2 sec)) = some ((m * 60 + sec) * 1000) := by
  obtain ⟨f1, f2, hf, hf1, hf2, hfv⟩ := pad2_two_digits sec hs
  have hdata : (mkToken (Nat.repr m) (pad2 sec)).data =
      '[' :: Nat.digitChar m :: ':' :: f1 :: f2 :: ']' :: [] := by
    rw [mkToken_data, reprData_lt10 m hm, hf]; rfl
  rw [parseTimestamp, hdata, findFirstMatch,
    tryMatchAt_token1 (Nat.digitChar m) f1 f2 [] (digitCharIsDigit m hm) hf1 hf2]
  simp [charDigitValDigitChar m hm, hfv]

theorem formatTime_mmss (m sec : Nat) (hs : sec < 60) :
    formatTime ((m * 60 + sec : Nat) : Int) = pad2 m ++ ":" ++ pad2 sec := by
  have h1 : (m * 60 + sec) / 60 = m := by omega
  have h2 : (m * 60 + sec) % 60 = sec := by omega
  have hneg : ¬ ((m * 60 + sec : Nat) : Int) < 0 := by omega
  rw [formatTime, if_neg hneg]
  simp only [Int.toNat_natCast, h1, h2]

theorem pad2_length (n : Nat) (h : n < 100) : (pad2 n).length = 2 := by
  obtain ⟨e1, e2, he, -, -, -⟩ := pad2_two_digits n h
  simp [String.length, he]

/-- C8 (amended).  For every valid bracketed token whose seconds field reads
less than 60 — minutes given either as any two-digit field (`pad2 m`,
`m < 100`) or as a one-digit field (`Nat.repr m`, `m < 10`) —
`parseTimestamp` returns `(m*60+sec)*1000`, and `formatTime` applied to that
value divided by 1000 reproduces the normalized token text (minutes
zero-padded to two digits, seconds unchanged). -/
theorem parseFormat_roundtrip :
    (∀ m sec : Nat, m < 100 → sec < 60 →
      parseTimestamp (mkToken (pad2 m) (pad2 sec)) = some ((m * 60 + sec) * 1000) ∧
      ((m * 60 + sec) * 1000) / 1000 = m * 60 + sec ∧
      formatTime ((m * 60 + sec : Nat) : Int) = normalizedToken (pad2 m) (pad2 sec)) ∧
    (∀ m sec : Nat, m < 10 → sec < 60 →
      parseTimestamp (mkToken (Nat.repr m) (pad2 sec)) = some ((m * 60 + sec) * 1000) ∧
      formatTime ((m * 60 + sec : Nat) : Int) = normalizedToken (Nat.repr m) (pad2 sec)) := by
  constructor
  · intro m sec hm hs
    refine ⟨parseTimestamp_token2 m sec hm (by omega), by omega, ?_⟩
    rw [formatTime_mmss m sec hs, normalizedToken,
      padStart2_len2 (pad2 m) (by rw [pad2_length m hm])]
  · intro m sec hm hs
    refine ⟨parseTimestamp_token1 m sec hm (by omega), ?_⟩
    rw [formatTime_mmss m sec hs, normalizedToken]
    rfl

/-- C8 counterexample.  `"[01:75]"` is a valid token of the claim's shape
(two-digit minutes, exactly two-digit seconds), yet
`formatTime(parseTimestamp(s)/1000)` renormalizes the 75 seconds into
minutes and yields `"02:15"`, not the normalized form `"01:75"`. -/
theorem parseFormat_roundtrip_cex :
    mkToken "01" "75" = "[01:75]" ∧
    parseTimestamp (mkToken "01" "75") = some 135000 ∧
    (135000 : Nat) / 1000 = 135 ∧
    formatTime (135 : Int) = "02:15" ∧
    normalizedToken "01" "75" = "01:75" ∧
    ("02:15" : String) ≠ "01:75" := by
  decide

/-- Witness for `parseFormat_roundtrip` at `[02:10]` and `[1:02]`. -/
theorem parseFormat_roundtrip_witness :
    (parseTimestamp (mkToken (pad2 2) (pad2 10)) = some 130000 ∧
      (130000 : Nat) / 1000 = 130 ∧
      formatTime ((130 : Nat) : Int) = normalizedToken (pad2 2) (pad2 10)) ∧
    (parseTimestamp (mkToken (Nat.repr 1) (pad2 2)) = some 62000 ∧
      formatTime ((62 : Nat) : Int) = normalizedToken (Nat.repr 1) (pad2 2)) := by
  have h := parseFormat_roundtrip
  exact ⟨h.1 2 10 (by decide) (by decide), h.2 1 2 (by decide) (by decide)⟩

/-! ### C5: cache behaviour of `getTranscript` -/

theorem cacheGet_map_replace (k : String) (v : CachedTranscript) :
    ∀ m : List (String × CachedTranscript), m.any (fun p => p.1 == k) = true →
      cacheGet (m.map (fun p => if p.1 == k then (k, v) else p)) k = some v := by
  intro m
  induction m with
  | nil => simp
  | cons p t ih =>
    intro hany
    by_cases hp : (p.1 == k) = true
    · simp only [cacheGet, List.map_cons, if_pos hp]
      rw [List.find?_cons_of_pos _ (by simp)]
      rfl
    · have hp' : (p.1 == k) = false := by simpa using hp
      have hany' : t.any (fun p => p.1 == k) = true := by
        simpa [hp'] using hany
      have ih' := ih hany'
      simp only [cacheGet] at ih' ⊢
      rw [List.map_cons, if_neg (by rw [hp']; simp),
        List.find?_cons_of_neg _ (by simp [hp'])]
      exact ih'

theorem cacheGet_append_new (k : String) (v : CachedTranscript) :
    ∀ m : List (String × CachedTranscript), m.any (fun p => p.1 == k) = false →
      cacheGet (m ++ [(k, v)]) k = some v := by
  intro m
  induction m with
  | nil =>
    intro hany
    simp only [cacheGet, List.nil_append]
    rw [List.find?_cons_of_pos _ (by simp)]
    rfl
  | cons p t ih =>
    intro hany
    simp only [List.any_cons, Bool.or_eq_false_iff] at hany
    obtain ⟨hp', hany'⟩ := hany
    have ih' := ih hany'
    simp only [cacheGet] at ih' ⊢
    rw [List.cons_append, List.find?_cons_of_neg _ (by simp [hp'])]
    exact ih'

theorem cacheGet_cacheSet_self (m : List (String × CachedTranscript)) (k : String)
    (v : CachedTranscript) : cacheGet (cacheSet m k v) k = some v := by
  by_cases hany : m.any (fun p => p.1 == k) = true
  · rw [cacheSet, if_pos hany]
    exact cacheGet_map_replace k v m hany
  · have hany' : m.any (fun p => p.1 == k) = false := by
      cases h : m.any (fun p => p.1 == k) with
      | true => exact absurd h hany
      | false => rfl
    rw [cacheSet, if_neg (by rw [hany']; simp)]
    exact cacheGet_append_new k v m hany'

theorem getTranscriptM_hit (fuel : Nat) (oracle : Nat → FetchOutcome) (v : String)
    (w : TranscriptWorld) (fIdx : Nat) (evs : List FetchEvent) (c : CachedTranscript)
    (hc : cacheGet w.cache v = some c) (hfresh : w.now - c.timestamp < CACHE_DURATION) :
    getTranscriptM (fuel + 1) oracle v w fIdx evs = some (some c.entries, w, fIdx, evs) := by
  have hl : cacheLookupFresh w v = some c.entries := by
    simp [cacheLookupFresh, hc, hfresh]
  simp [getTranscriptM, hl]

theorem getTranscriptM_admitted (fuel : Nat) (oracle : Nat → FetchOutcome) (v : String)
    (w : TranscriptWorld) (fIdx : Nat) (evs : List FetchEvent)
    (hmiss : cacheLookupFresh w v = none)
    (hadm : (resetTracker w.now w.tracker).requestCount < MAX_REQUESTS_PER_MINUTE) :
    getTranscriptM (fuel + 1) oracle v w fIdx evs =
      some (fetchLoop oracle v w.now { w with tracker := resetTracker w.now w.tracker }
        fIdx evs 0 MAX_RETRIES) := by
  have hge : ¬ (resetTracker w.now w.tracker).requestCount ≥ MAX_REQUESTS_PER_MINUTE := by
    omega
  simp [getTranscriptM, hmiss, hge]

theorem fetchLoop_success (oracle : Nat → FetchOutcome) (v : String) (entryNow : Int)
    (w : TranscriptWorld) (fIdx : Nat) (evs : List FetchEvent) (r f : Nat)
    (es : List TranscriptEntry) (hr : r < MAX_RETRIES) (ho : oracle fIdx = .success es)
    (hne : es ≠ []) :
    fetchLoop oracle v entryNow w fIdx evs r (f + 1) =
      (some es,
       ⟨cacheSet w.cache v ⟨es, entryNow⟩,
        ⟨w.now, w.tracker.requestCount + 1, w.tracker.resetTime⟩, w.now⟩,
       fIdx + 1, evs ++ [.fetchAttempt]) := by
  have hne' : es.isEmpty = false := by simpa [List.isEmpty_iff] using hne
  simp [fetchLoop, hr, ho, hne']

theorem fetchLoop_empty (oracle : Nat → FetchOutcome) (v : String) (entryNow : Int)
    (w : TranscriptWorld) (fIdx : Nat) (evs : List FetchEvent) (r f : Nat)
    (hr : r < MAX_RETRIES) (ho : oracle fIdx = .success []) :
    fetchLoop oracle v entryNow w fIdx evs r (f + 1) =
      (none, ⟨w.cache, ⟨w.now, w.tracker.requestCount + 1, w.tracker.resetTime⟩, w.now⟩,
       fIdx + 1, evs ++ [.fetchAttempt]) := by
  simp [fetchLoop, hr, ho]

theorem fetchLoop_fIdx_mono (oracle : Nat → FetchOutcome) (v : String) (entryNow : Int) :
    ∀ (fuel r : Nat) (w : TranscriptWorld) (fIdx : Nat) (evs : List FetchEvent),
      fIdx ≤ (fetchLoop oracle v entryNow w fIdx evs r fuel).2.2.1 := by
  intro fuel
  induction fuel with
  | zero => intro r w fIdx evs; simp [fetchLoop]
  | succ f ih =>
    intro r w fIdx evs
    rw [fetchLoop]
    by_cases hr : r < MAX_RETRIES
    · simp only [hr, if_true]
      cases ho : oracle fIdx with
      | success es =>
        by_cases hes : es.isEmpty <;> simp [ho, hes]
      | failure msg =>
        by_cases hclass : (strContains msg "rate" || strContains msg "429" ||
            strContains msg "too many") ||
            (strContains msg "timeout" || strContains msg "network" ||
              strContains msg "temporary")
        · by_cases hrr : r + 1 < MAX_RETRIES
          · simp only [ho, hclass, hrr, if_true]
            have := ih (r + 1)
              ⟨w.cache, ⟨w.now, w.tracker.requestCount + 1, w.tracker.resetTime⟩,
                w.now + 2 ^ (r + 1) * 500⟩
              (fIdx + 1) (evs ++ [.fetchAttempt] ++ [.backoffWait (2 ^ (r + 1) * 500)])
            omega
          · simp [ho, hclass, hrr]
        · simp [ho, hclass]
    · simp [hr]

theorem fetchLoop_enters (oracle : Nat → FetchOutcome) (v : String) (en : Int)
    (w : TranscriptWorld) (fIdx : Nat) (evs : List FetchEvent) (r f : Nat)
    (hr : r < MAX_RETRIES) :
    fIdx + 1 ≤ (fetchLoop oracle v en w fIdx evs r (f + 1)).2.2.1 := by
  rw [fetchLoop]
  simp only [hr, if_true]
  cases ho : oracle fIdx with
  | success es => by_cases hes : es.isEmpty <;> simp [hes]
  | failure msg =>
    by_cases hclass : (strContains msg "rate" || strContains msg "429" ||
        strContains msg "too many") ||
        (strContains msg "timeout" || strContains msg "network" ||
          strContains msg "temporary")
    · by_cases hrr : r + 1 < MAX_RETRIES
      · simp only [hclass, hrr, if_true]
        have := fetchLoop_fIdx_mono oracle v en f (r + 1)
          ⟨w.cache, ⟨w.now, w.tracker.requestCount + 1, w.tracker.resetTime⟩,
            w.now + 2 ^ (r + 1) * 500⟩
          (fIdx + 1) (evs ++ [.fetchAttempt] ++ [.backoffWait (2 ^ (r + 1) * 500)])
        omega
      · simp [hclass, hrr]
    · simp [hclass]

theorem fetchLoop_count_le (oracle : Nat → FetchOutcome) (v : String) (en : Int) :
    ∀ (fuel r : Nat) (w : TranscriptWorld) (fIdx : Nat) (evs : List FetchEvent),
      ((fetchLoop oracle v en w fIdx evs r fuel).2.1).tracker.requestCount ≤
        w.tracker.requestCount + fuel := by
  intro fuel
  induction fuel with
  | zero => intro r w fIdx evs; simp [fetchLoop]
  | succ f ih =>
    intro r w fIdx evs
    rw [fetchLoop]
    by_cases hr : r < MAX_RETRIES
    · simp only [hr, if_true]
      cases ho : oracle fIdx with
      | success es => by_cases hes : es.isEmpty <;> simp [hes]
      | failure msg =>
        by_cases hclass : (strContains msg "rate" || strContains msg "429" ||
            strContains msg "too many") ||
            (strContains msg "timeout" || strContains msg "network" ||
              strContains msg "temporary")
        · by_cases hrr : r + 1 < MAX_RETRIES
          · simp only [hclass, hrr, if_true]
            have := ih (r + 1)
              ⟨w.cache, ⟨w.now, w.tracker.requestCount + 1, w.tracker.resetTime⟩,
                w.now + 2 ^ (r + 1) * 500⟩
              (fIdx + 1) (evs ++ [.fetchAttempt] ++ [.backoffWait (2 ^ (r + 1) * 500)])
            simp only at this
            omega
          · simp [hclass, hrr]
        · simp [hclass]
    · simp [hr]

theorem getTranscriptM_rateWait (fuel : Nat) (oracle : Nat → FetchOutcome) (v : String)
    (w : TranscriptWorld) (fIdx : Nat) (evs : List FetchEvent)
    (hmiss : cacheLookupFresh w v = none)
    (hceil : (resetTracker w.now w.tracker).requestCount ≥ MAX_REQUESTS_PER_MINUTE)
    (htw : (resetTracker w.now w.tracker).resetTime - w.now > 0) :
    getTranscriptM (fuel + 1) oracle v w fIdx evs =
      getTranscriptM fuel oracle v
        { w with tracker := resetTracker w.now w.tracker,
                 now := w.now + ((resetTracker w.now w.tracker).resetTime - w.now + 100) }
        fIdx (evs ++ [.rateWait ((resetTracker w.now w.tracker).resetTime - w.now + 100)]) := by
  simp [getTranscriptM, hmiss, hceil, htw]

theorem getTranscriptM_total (oracle : Nat → FetchOutcome) (v : String)
    (w : TranscriptWorld) (fIdx : Nat) (evs : List FetchEvent) :
    (getTranscriptM 2 oracle v w fIdx evs).isSome := by
  cases hL : cacheLookupFresh w v with
  | some es => simp [getTranscriptM, hL]
  | none =>
    by_cases hceil : (resetTracker w.now w.tracker).requestCount ≥ MAX_REQUESTS_PER_MINUTE
    · by_cases htw : (resetTracker w.now w.tracker).resetTime - w.now > 0
      · rw [show (2 : Nat) = 1 + 1 from rfl, getTranscriptM_rateWait 1 oracle v w fIdx evs hL hceil htw]
        set w2 : TranscriptWorld :=
          { w with tracker := resetTracker w.now w.tracker,
                   now := w.now + ((resetTracker w.now w.tracker).resetTime - w.now + 100) }
          with hw2
        cases hL2 : cacheLookupFresh w2 v with
        | some es => simp [getTranscriptM, hL2]
        | none =>
          have hgt : w2.now > w2.tracker.resetTime := by
            have h1 : w2.now =
                w.now + ((resetTracker w.now w.tracker).resetTime - w.now + 100) := rfl
            have h2 : w2.tracker = resetTracker w.now w.tracker := rfl
            rw [h1, h2]
            omega
          have hadm : ¬ (resetTracker w2.now w2.tracker).requestCount ≥
              MAX_REQUESTS_PER_MINUTE := by
            rw [resetTracker, if_pos hgt]
            simp [MAX_REQUESTS_PER_MINUTE]
          simp [getTranscriptM, hL2, hadm]
      · simp [getTranscriptM, hL, hceil, htw]
    · simp [getTranscriptM, hL, hceil]

/-- C2 counterexample.  Starting with an empty cache and `requestCount = 9`
(one below the ceiling) at clock 1000 within the window ending at 60000, a
single `getTranscript` call whose three fetch attempts fail with a transient
`"timeout"` drives `requestCount` to 12 — above the ceiling of 10 — while the
only suspensions are the two short backoff sleeps: no rate-limit wait (and no
restart from the cache check) ever happens, because the ceiling is checked
only once, before the retry loop. -/
theorem rateLimiter_ceiling_exceeded_cex :
    getTranscriptM 2 (fun _ => .failure "timeout") "X" ⟨[], ⟨0, 9, 60000⟩, 1000⟩ 0 [] =
      some (none, ⟨[], ⟨4000, 12, 60000⟩, 4000⟩, 3,
        [.fetchAttempt, .backoffWait 1000, .fetchAttempt, .backoffWait 2000,
         .fetchAttempt]) ∧
    12 > MAX_REQUESTS_PER_MINUTE ∧
    ([.fetchAttempt, .backoffWait 1000, .fetchAttempt, .backoffWait 2000,
      .fetchAttempt] : List FetchEvent).filter FetchEvent.isRateWait = [] := by
  decide

/-- C2 (amended).  When the per-minute ceiling has been reached at the
rate-limit check and the window has not yet expired, the call suspends for
the remaining window plus the 100 ms margin and restarts the whole procedure
from the cache check; one such suspension always suffices, and the limiter
never makes `getTranscript` fail (it resolves to an entry list or `null`).
The ceiling check runs only once, before the retry loop, so a call admitted
with the counter below the ceiling can still add up to `MAX_RETRIES` fetch
attempts, pushing `requestCount` as high as 12 within the window with no
rate-limit wait. -/
theorem rateLimiter_wait_and_restart :
    (∀ (fuel : Nat) (oracle : Nat → FetchOutcome) (v : String) (w : TranscriptWorld)
        (fIdx : Nat) (evs : List FetchEvent),
      cacheLookupFresh w v = none →
      (resetTracker w.now w.tracker).requestCount ≥ MAX_REQUESTS_PER_MINUTE →
      (resetTracker w.now w.tracker).resetTime - w.now > 0 →
      getTranscriptM (fuel + 1) oracle v w fIdx evs =
        getTranscriptM fuel oracle v
          { w with tracker := resetTracker w.now w.tracker,
                   now := w.now + ((resetTracker w.now w.tracker).resetTime - w.now + 100) }
          fIdx
          (evs ++ [.rateWait ((resetTracker w.now w.tracker).resetTime - w.now + 100)])) ∧
    (∀ (oracle : Nat → FetchOutcome) (v : String) (w : TranscriptWorld) (fIdx : Nat)
        (evs : List FetchEvent), (getTranscriptM 2 oracle v w fIdx evs).isSome) ∧
    (∀ (oracle : Nat → FetchOutcome) (v : String) (w : TranscriptWorld) (fIdx : Nat)
        (evs : List FetchEvent)
        (res : Option (List TranscriptEntry) × TranscriptWorld × Nat × List FetchEvent),
      cacheLookupFresh w v = none →
      (resetTracker w.now w.tracker).requestCount < MAX_REQUESTS_PER_MINUTE →
      getTranscriptM 1 oracle v w fIdx evs = some res →
      res.2.1.tracker.requestCount ≤ (resetTracker w.now w.tracker).requestCount + MAX_RETRIES ∧
        res.2.1.tracker.requestCount ≤ 12) := by
  refine ⟨getTranscriptM_rateWait, getTranscriptM_total, ?_⟩
  intro oracle v w fIdx evs res hmiss hadm hrun
  rw [show (1 : Nat) = 0 + 1 from rfl, getTranscriptM_admitted 0 oracle v w fIdx evs hmiss hadm]
    at hrun
  have hres := Option.some.inj hrun
  have hcount := fetchLoop_count_le oracle v w.now MAX_RETRIES 0
    { w with tracker := resetTracker w.now w.tracker } fIdx evs
  rw [hres] at hcount
  simp only at hcount
  constructor
  · exact hcount
  · have : MAX_RETRIES = 3 := rfl
    have h10 : MAX_REQUESTS_PER_MINUTE = 10 := rfl
    omega

/-- Witness for `rateLimiter_wait_and_restart`: a call arriving with the
counter at the ceiling suspends 59100 ms and restarts from the cache check;
totality at a concrete world; and the admitted-call bound at a concrete
three-failure run. -/
theorem rateLimiter_wait_and_restart_witness :
    (getTranscriptM 2 (fun _ => .success [⟨"a", 0, 5000⟩]) "X"
        ⟨[], ⟨0, 10, 60000⟩, 1000⟩ 0 [] =
      getTranscriptM 1 (fun _ => .success [⟨"a", 0, 5000⟩]) "X"
        ⟨[], ⟨0, 10, 60000⟩, 60100⟩ 0 [.rateWait 59100]) ∧
    (getTranscriptM 2 (fun _ => .success []) "Y" ⟨[], ⟨0, 0, 60000⟩, 5⟩ 0 []).isSome ∧
    ((12 : Nat) ≤ 9 + MAX_RETRIES ∧ (12 : Nat) ≤ 12) := by
  have h := rateLimiter_wait_and_restart
  refine ⟨?_, h.2.1 _ "Y" _ 0 [], ?_⟩
  · have h1 := h.1 1 (fun _ => .success [⟨"a", 0, 5000⟩]) "X"
      ⟨[], ⟨0, 10, 60000⟩, 1000⟩ 0 [] (by decide) (by decide) (by decide)
    simpa using h1
  · have h3 := h.2.2 (fun _ => .failure "timeout") "X" ⟨[], ⟨0, 9, 60000⟩, 1000⟩ 0 []
      (none, ⟨[], ⟨4000, 12, 60000⟩, 4000⟩, 3,
        [.fetchAttempt, .backoffWait 1000, .fetchAttempt, .backoffWait 2000,
         .fetchAttempt]) (by decide) (by decide) (by decide)
    simpa using h3

/-- C5.  A fresh cache entry is returned as-is with no fetch, no event and no
state change; an admitted miss whose fetch yields a non-empty entry list
caches it under the video id (stamped with the entry-time clock) and returns
it; a fetch yielding zero entries returns `null` and leaves the cache
untouched; any later call on the cached video within the TTL is a pure cache
hit (no further fetch, whatever the rate-limit state); and a call that finds
the entry expired performs a new external fetch. -/
theorem transcriptCache_ttl :
    (∀ (fuel : Nat) (oracle : Nat → FetchOutcome) (v : String) (w : TranscriptWorld)
        (fIdx : Nat) (evs : List FetchEvent) (c : CachedTranscript),
      cacheGet w.cache v = some c → w.now - c.timestamp < CACHE_DURATION →
      getTranscriptM (fuel + 1) oracle v w fIdx evs = some (some c.entries, w, fIdx, evs)) ∧
    (∀ (oracle : Nat → FetchOutcome) (v : String) (w : TranscriptWorld) (fIdx : Nat)
        (evs : List FetchEvent) (es : List TranscriptEntry),
      cacheLookupFresh w v = none →
      (resetTracker w.now w.tracker).requestCount < MAX_REQUESTS_PER_MINUTE →
      oracle fIdx = .success es → es ≠ [] →
      getTranscriptM 1 oracle v w fIdx evs =
        some (some es,
          ⟨cacheSet w.cache v ⟨es, w.now⟩,
           ⟨w.now, (resetTracker w.now w.tracker).requestCount + 1,
            (resetTracker w.now w.tracker).resetTime⟩, w.now⟩,
          fIdx + 1, evs ++ [.fetchAttempt])) ∧
    (∀ (oracle : Nat → FetchOutcome) (v : String) (w : TranscriptWorld) (fIdx : Nat)
        (evs : List FetchEvent),
      cacheLookupFresh w v = none →
      (resetTracker w.now w.tracker).requestCount < MAX_REQUESTS_PER_MINUTE →
      oracle fIdx = .success [] →
      getTranscriptM 1 oracle v w fIdx evs =
        some (none,
          ⟨w.cache,
           ⟨w.now, (resetTracker w.now w.tracker).requestCount + 1,
            (resetTracker w.now w.tracker).resetTime⟩, w.now⟩,
          fIdx + 1, evs ++ [.fetchAttempt])) ∧
    (∀ (fuel : Nat) (oracle : Nat → FetchOutcome) (v : String)
        (cache0 : List (String × CachedTranscript)) (t2 : RateLimitTracker)
        (es : List TranscriptEntry) (t0 Δ : Int) (fIdx : Nat) (evs : List FetchEvent),
      0 ≤ Δ → Δ < CACHE_DURATION →
      getTranscriptM (fuel + 1) oracle v ⟨cacheSet cache0 v ⟨es, t0⟩, t2, t0 + Δ⟩ fIdx evs =
        some (some es, ⟨cacheSet cache0 v ⟨es, t0⟩, t2, t0 + Δ⟩, fIdx, evs)) ∧
    (∀ (oracle : Nat → FetchOutcome) (v : String) (w : TranscriptWorld) (fIdx : Nat)
        (evs : List FetchEvent) (c : CachedTranscript),
      cacheGet w.cache v = some c → w.now - c.timestamp ≥ CACHE_DURATION →
      (resetTracker w.now w.tracker).requestCount < MAX_REQUESTS_PER_MINUTE →
      getTranscriptM 1 oracle v w fIdx evs =
        some (fetchLoop oracle v w.now { w with tracker := resetTracker w.now w.tracker }
          fIdx evs 0 MAX_RETRIES) ∧
      fIdx + 1 ≤ (fetchLoop oracle v w.now
        { w with tracker := resetTracker w.now w.tracker } fIdx evs 0 MAX_RETRIES).2.2.1) := by
  refine ⟨getTranscriptM_hit, ?_, ?_, ?_, ?_⟩
  · intro oracle v w fIdx evs es hmiss hadm ho hne
    rw [show (1 : Nat) = 0 + 1 from rfl,
      getTranscriptM_admitted 0 oracle v w fIdx evs hmiss hadm,
      show MAX_RETRIES = 2 + 1 from rfl,
      fetchLoop_success oracle v w.now _ fIdx evs 0 2 es (by decide) ho hne]
  · intro oracle v w fIdx evs hmiss hadm ho
    rw [show (1 : Nat) = 0 + 1 from rfl,
      getTranscriptM_admitted 0 oracle v w fIdx evs hmiss hadm,
      show MAX_RETRIES = 2 + 1 from rfl,
      fetchLoop_empty oracle v w.now _ fIdx evs 0 2 (by decide) ho]
  · intro fuel oracle v cache0 t2 es t0 dlt fIdx evs hd0 hdlt
    have hget : cacheGet (cacheSet cache0 v ⟨es, t0⟩) v = some ⟨es, t0⟩ :=
      cacheGet_cacheSet_self cache0 v ⟨es, t0⟩
    exact getTranscriptM_hit fuel oracle v ⟨cacheSet cache0 v ⟨es, t0⟩, t2, t0 + dlt⟩
      fIdx evs ⟨es, t0⟩ hget (by simp; omega)
  · intro oracle v w fIdx evs c hc hstale hadm
    have hmiss : cacheLookupFresh w v = none := by
      simp [cacheLookupFresh, hc]
      omega
    refine ⟨?_, ?_⟩
    · rw [show (1 : Nat) = 0 + 1 from rfl,
        getTranscriptM_admitted 0 oracle v w fIdx evs hmiss hadm]
    · rw [show MAX_RETRIES = 2 + 1 from rfl]
      exact fetchLoop_enters oracle v w.now _ fIdx evs 0 2 (by decide)

/-- Witness for `transcriptCache_ttl`: a concrete miss-fetch-cache run, the
cache hit it enables 1000 ms later, a zero-entry fetch, and a stale-entry
refetch. -/
theorem transcriptCache_ttl_witness :
    (getTranscriptM 1 (fun _ => .success [⟨"a", 0, 5000⟩]) "X"
        ⟨[], ⟨0, 0, 60000⟩, 1000⟩ 0 [] =
      some (some [⟨"a", 0, 5000⟩],
        ⟨[("X", ⟨[⟨"a", 0, 5000⟩], 1000⟩)], ⟨1000, 1, 60000⟩, 1000⟩, 1,
        [.fetchAttempt])) ∧
    (getTranscriptM 1 (fun _ => .success [⟨"a", 0, 5000⟩]) "X"
        ⟨cacheSet [] "X" ⟨[⟨"a", 0, 5000⟩], 1000⟩, ⟨1000, 1, 60000⟩, 1000 + 1000⟩ 1 [] =
      some (some [⟨"a", 0, 5000⟩],
        ⟨cacheSet [] "X" ⟨[⟨"a", 0, 5000⟩], 1000⟩, ⟨1000, 1, 60000⟩, 1000 + 1000⟩, 1, [])) ∧
    (getTranscriptM 1 (fun _ => .success []) "Y" ⟨[], ⟨0, 0, 60000⟩, 1000⟩ 0 [] =
      some (none, ⟨[], ⟨1000, 1, 60000⟩, 1000⟩, 1, [.fetchAttempt])) ∧
    (getTranscriptM 1 (fun _ => .success [⟨"b", 0, 1000⟩]) "X"
        ⟨[("X", ⟨[⟨"a", 0, 5000⟩], 0⟩)], ⟨0, 0, 7200000 + 60000⟩, 3600000⟩ 0 [] =
      some (fetchLoop (fun _ => .success [⟨"b", 0, 1000⟩]) "X" 3600000
        ⟨[("X", ⟨[⟨"a", 0, 5000⟩], 0⟩)], ⟨0, 0, 7200000 + 60000⟩, 3600000⟩ 0 [] 0
        MAX_RETRIES) ∧
      (1 : Nat) ≤ (fetchLoop (fun _ => .success [⟨"b", 0, 1000⟩]) "X" 3600000
        ⟨[("X", ⟨[⟨"a", 0, 5000⟩], 0⟩)], ⟨0, 0, 7200000 + 60000⟩, 3600000⟩ 0 [] 0
        MAX_RETRIES).2.2.1) := by
  have h := transcriptCache_ttl
  refine ⟨?_, ?_, ?_, ?_⟩
  · have hb := h.2.1 (fun _ => .success [⟨"a", 0, 5000⟩]) "X"
      ⟨[], ⟨0, 0, 60000⟩, 1000⟩ 0 [] [⟨"a", 0, 5000⟩]
      (by decide) (by decide) rfl (by decide)
    simpa using hb
  · have hd := h.2.2.2.1 0 (fun _ => .success [⟨"a", 0, 5000⟩]) "X" [] ⟨1000, 1, 60000⟩
      [⟨"a", 0, 5000⟩] 1000 1000 1 [] (by decide) (by decide)
    simpa using hd
  · have hc := h.2.2.1 (fun _ => .success []) "Y" ⟨[], ⟨0, 0, 60000⟩, 1000⟩ 0 []
      (by decide) (by decide) rfl
    simpa using hc
  · have he := h.2.2.2.2 (fun _ => .success [⟨"b", 0, 1000⟩]) "X"
      ⟨[("X", ⟨[⟨"a", 0, 5000⟩], 0⟩)], ⟨0, 0, 7200000 + 60000⟩, 3600000⟩ 0 []
      ⟨[⟨"a", 0, 5000⟩], 0⟩ (by decide) (by decide) (by decide)
    simpa using he

/-! ### C7 and C10: `saveMessage` behaviour -/

theorem capContent_length_le (c : String) : (capContent c).length ≤ MAX_CONTENT_SIZE := by
  rw [capContent]
  split_ifs with h
  · have ht : (c.take (MAX_CONTENT_SIZE - 3)).length = MAX_CONTENT_SIZE - 3 := by
      rw [String.take_eq]
      simp only [String.length]
      rw [List.length_take]
      have hc : MAX_CONTENT_SIZE - 3 ≤ c.data.length := by
        have : c.length = c.data.length := rfl
        simp only [MAX_CONTENT_SIZE] at h ⊢
        omega
      omega
    have : (c.take (MAX_CONTENT_SIZE - 3) ++ "...").length =
        (c.take (MAX_CONTENT_SIZE - 3)).length + 3 := by
      rw [String.length_append]
      rfl
    simp only [MAX_CONTENT_SIZE] at ht this ⊢
    omega
  · omega

/-- C7.  The stored content is the message text (or the serialized message
object when the text is not a plain string) capped at `MAX_CONTENT_SIZE` with
a trailing `'...'`; a rate-limit-signature failure is retried with delays
`500·2^attempt` for exactly three retries (four insert attempts) and then
resolves to `false`; a transient-network failure follows the same policy; any
other failure aborts after its single attempt, also resolving to `false`
rather than throwing; a clean insert resolves to `true` with the capped row. -/
theorem saveMessage_retry_policy :
    (∀ c : String, (capContent c).length ≤ MAX_CONTENT_SIZE ∧
      (c.length ≤ MAX_CONTENT_SIZE → capContent c = c) ∧
      (c.length > MAX_CONTENT_SIZE →
        capContent c = c.take (MAX_CONTENT_SIZE - 3) ++ "...")) ∧
    (∀ (msg : String) (code : Option String) (m : MessageV) (now0 : Int),
      isRateLimitError msg code = true →
      saveMessage (fun _ => .dbError msg code) m now0 =
        ⟨false, 4, [1000, 2000, 4000], none⟩) ∧
    (∀ (msg : String) (m : MessageV) (now0 : Int),
      isRetryableThrown msg true = true →
      saveMessage (fun _ => .thrown msg true) m now0 =
        ⟨false, 4, [1000, 2000, 4000], none⟩) ∧
    (∀ (msg : String) (isErr : Bool) (m : MessageV) (now0 : Int),
      isRetryableThrown msg isErr = false →
      saveMessage (fun _ => .thrown msg isErr) m now0 = ⟨false, 1, [], none⟩) ∧
    (∀ (msg : String) (code : Option String) (m : MessageV) (now0 : Int),
      isRateLimitError msg code = false → isRetryableThrown msg true = false →
      saveMessage (fun _ => .dbError msg code) m now0 = ⟨false, 1, [], none⟩) ∧
    (∀ (m : MessageV) (now0 : Int),
      saveMessage (fun _ => .ok) m now0 =
        ⟨true, 1, [], some (prepareContent m, rowTimestamp m.timestamp now0, m.isAi)⟩) := by
  refine ⟨?_, ?_, ?_, ?_, ?_, ?_⟩
  · intro c
    refine ⟨capContent_length_le c, ?_, ?_⟩
    · intro h
      rw [capContent, if_neg (by omega)]
    · intro h
      rw [capContent, if_pos h]
  · intro msg code m now0 hrate
    by_cases hth : isRetryableThrown msg true = true <;>
      simp [saveMessage, saveLoop, hrate, hth]
  · intro msg m now0 hth
    simp [saveMessage, saveLoop, hth]
  · intro msg isErr m now0 hth
    simp [saveMessage, saveLoop, hth]
  · intro msg code m now0 hrate hth
    simp [saveMessage, saveLoop, hrate, hth]
  · intro m now0
    simp [saveMessage, saveLoop]

/-- Witness for `saveMessage_retry_policy`: an 8200-character content is
capped, a rate-limited insert retries three times with the stated delays and
resolves false, a transient network error does the same, a non-retryable
error aborts after one attempt, and a clean insert stores the row. -/
theorem saveMessage_retry_policy_witness :
    capContent (String.mk (List.replicate 8200 'a')) =
      (String.mk (List.replicate 8200 'a')).take (MAX_CONTENT_SIZE - 3) ++ "..." ∧
    saveMessage (fun _ => .dbError "rate limit exceeded" none)
      ⟨1, "You", .jstr "hi", some 95, false, none⟩ 0 =
      ⟨false, 4, [1000, 2000, 4000], none⟩ ∧
    saveMessage (fun _ => .thrown "network glitch" true)
      ⟨1, "You", .jstr "hi", some 95, false, none⟩ 0 =
      ⟨false, 4, [1000, 2000, 4000], none⟩ ∧
    saveMessage (fun _ => .thrown "disk on fire" true)
      ⟨1, "You", .jstr "hi", some 95, false, none⟩ 0 = ⟨false, 1, [], none⟩ ∧
    saveMessage (fun _ => .dbError "unique constraint violated" none)
      ⟨1, "You", .jstr "hi", some 95, false, none⟩ 0 = ⟨false, 1, [], none⟩ ∧
    saveMessage (fun _ => .ok) ⟨1, "You", .jstr "hi", some 95, false, none⟩ 5000 =
      ⟨true, 1, [], some ("hi", 95, false)⟩ := by
  have h := saveMessage_retry_policy
  refine ⟨?_, ?_, ?_, ?_, ?_, ?_⟩
  · refine (h.1 (String.mk (List.replicate 8200 'a'))).2.2 ?_
    show (String.mk (List.replicate 8200 'a')).data.length > MAX_CONTENT_SIZE
    rw [show (String.mk (List.replicate 8200 'a')).data = List.replicate 8200 'a' from rfl,
      List.length_replicate]
    decide
  · exact h.2.1 "rate limit exceeded" none _ 0 (by decide)
  · exact h.2.2.1 "network glitch" _ 0 (by decide)
  · exact h.2.2.2.1 "disk on fire" true _ 0 (by decide)
  · exact h.2.2.2.2.1 "unique constraint violated" none _ 0 (by decide) (by decide)
  · have h6 := h.2.2.2.2.2 ⟨1, "You", .jstr "hi", some 95, false, none⟩ 5000
    simpa using h6

/-- C10.  The persisted `timestamp` column is
`message.timestamp || Math.floor(Date.now() / 1000)`: a `0`, `null` or
`undefined` playback timestamp is replaced by the current wall-clock second;
in particular a message created at playback position 0 is stored with the
save-time clock, which is non-zero whenever the clock is at least one second
past the epoch. -/
theorem saveMessage_timestamp_fallback :
    (∀ (msgTs : Option Int) (nowMs : Int), msgTs = none ∨ msgTs = some 0 →
      rowTimestamp msgTs nowMs = Int.fdiv nowMs 1000) ∧
    (∀ (m : MessageV) (now0 : Int), m.timestamp = none ∨ m.timestamp = some 0 →
      saveMessage (fun _ => .ok) m now0 =
        ⟨true, 1, [], some (prepareContent m, Int.fdiv now0 1000, m.isAi)⟩) ∧
    (∀ (msgTs : Option Int) (nowMs : Int), msgTs = none ∨ msgTs = some 0 →
      1000 ≤ nowMs → rowTimestamp msgTs nowMs ≠ 0) ∧
    (∀ (msgTs : Option Int) (nowMs t : Int), msgTs = some t → t ≠ 0 →
      rowTimestamp msgTs nowMs = t) := by
  have hfall : ∀ (msgTs : Option Int) (nowMs : Int), msgTs = none ∨ msgTs = some 0 →
      rowTimestamp msgTs nowMs = Int.fdiv nowMs 1000 := by
    intro msgTs nowMs hf
    rcases hf with h | h <;> subst h <;> simp [rowTimestamp]
  refine ⟨hfall, ?_, ?_, ?_⟩
  · intro m now0 hf
    rw [show saveMessage (fun _ => .ok) m now0 =
      ⟨true, 1, [], some (prepareContent m, rowTimestamp m.timestamp now0, m.isAi)⟩
      from by simp [saveMessage, saveLoop], hfall m.timestamp now0 hf]
  · intro msgTs nowMs hf hclk
    rw [hfall msgTs nowMs hf, Int.fdiv_eq_ediv _ (by omega)]
    have : 1 ≤ nowMs / 1000 := by
      rw [Int.le_ediv_iff_mul_le (by omega)]
      omega
    omega
  · intro msgTs nowMs t hsome ht
    subst hsome
    simp [rowTimestamp, ht]

/-- Witness for `saveMessage_timestamp_fallback`: a message pinned to
playback position 0 saved at clock 1700000000000 ms is stored with timestamp
1700000000, and a non-zero playback timestamp is stored as-is. -/
theorem saveMessage_timestamp_fallback_witness :
    rowTimestamp (some 0) 1700000000000 = 1700000000 ∧
    saveMessage (fun _ => .ok) ⟨1, "You", .jstr "hi", some 0, false, none⟩ 1700000000000 =
      ⟨true, 1, [], some ("hi", 1700000000, false)⟩ ∧
    rowTimestamp (some 0) 1700000000000 ≠ 0 ∧
    rowTimestamp (some 95) 1700000000000 = 95 := by
  have h := saveMessage_timestamp_fallback
  refine ⟨?_, ?_, ?_, ?_⟩
  · have := h.1 (some 0) 1700000000000 (Or.inr rfl)
    simpa using this
  · have := h.2.1 ⟨1, "You", .jstr "hi", some 0, false, none⟩ 1700000000000 (Or.inr rfl)
    simpa using this
  · exact h.2.2.1 (some 0) 1700000000000 (Or.inr rfl) (by omega)
  · exact h.2.2.2 (some 95) 1700000000000 95 rfl (by omega)
